import Mathlib

/-!
Verification development for the CA Dashboard query engine (src/app.py).

The engine is shallowly embedded here:
- Python strings are Lean `String`s; the Python substring test `needle in hay`
  is the executable `strIn`.
- Numeric indicator values and deltas are stored in the documents as floats
  carrying one decimal place (the import scripts read CSV values and the
  explainer renders them with a one-decimal format); they are embedded as
  integers counting tenths, which is exact for every such value, and the
  one-decimal rendering is `fmtTenths`.
- The external AI completion capability and the document store are
  collaborators: they are passed in as explicit parameters (an `Option`
  outcome for the AI calls, a function from compiled filters to record lists
  for the store), so every control path of the engine is a total function.
-/

set_option maxRecDepth 20000

namespace CADash

/-- Executable helper for the Python substring test: does the character list
`needle` occur contiguously inside `hay`? -/
def containsSubAux (needle : List Char) : List Char → Bool
  | [] => needle.isEmpty
  | c :: rest => needle.isPrefixOf (c :: rest) || containsSubAux needle rest

/-- Python `needle in hay` on strings. -/
def strIn (needle hay : String) : Bool :=
  containsSubAux needle.toList hay.toList

/-- Python `str.lower()` (character-wise lower-casing; extensionally the
same function as `String.toLower`, spelled structurally so that concrete
evaluation goes through the kernel). -/
def pyLower (s : String) : String :=
  String.mk (s.toList.map Char.toLower)

/-- Python `str.title()` restricted to the single-word color names it is
applied to: first character upper-cased, remaining characters lower-cased. -/
def pyTitle (s : String) : String :=
  match s.toList with
  | [] => ""
  | c :: cs => String.mk (c.toUpper :: cs.map Char.toLower)

/-- The dictionary produced by the intent extractor (the `parsed` dict of
`parse_query_with_patterns` / the JSON shape requested from the AI path). -/
structure ParsedQuery where
  district_name : Option String
  school_name : Option String
  colors : List String
  indicators : List String
  student_groups : List String
  data_availability : String
  explanation : String
deriving Repr, DecidableEq

/-- District keyword lexicon of `parse_query_with_patterns` (app.py 473-482),
in source order; the first match wins. -/
def district_keywords : List (String × String) :=
  [("sunnyvale", "sunnyvale"),
   ("san francisco", "san francisco"),
   ("los angeles", "los angeles"),
   ("oakland", "oakland"),
   ("san diego", "san diego"),
   ("alameda", "alameda"),
   ("fresno", "fresno"),
   ("sacramento", "sacramento")]

/-- Student-group synonym lexicon (app.py 490-498), in insertion order; all
matches are collected. -/
def student_group_patterns : List (String × String) :=
  [("hispanic", "HI"), ("latino", "HI"), ("black", "AA"), ("african american", "AA"),
   ("asian", "AS"), ("white", "WH"), ("filipino", "FI"), ("pacific islander", "PI"),
   ("american indian", "AI"), ("two or more races", "MR"), ("english learners", "EL"),
   ("english learner", "EL"), ("long-term english learners", "LTEL"),
   ("socioeconomically disadvantaged", "SED"), ("low income", "SED"),
   ("students with disabilities", "SWD"), ("special education", "SWD"),
   ("homeless", "HOM"), ("foster", "FOS"), ("all students", "ALL")]

/-- The five explicit color words (app.py 505). -/
def color_words : List String := ["red", "orange", "yellow", "green", "blue"]

/-- Keywords mapping to the chronic-absenteeism indicator (app.py 511). -/
def chronic_terms : List String := ["chronic", "absenteeism", "attendance", "absent"]

/-- Keywords mapping to the ELA indicator (app.py 514). -/
def ela_terms : List String := ["ela", "english language arts", "reading", "literacy"]

/-- Keywords mapping to the math indicator (app.py 517). -/
def math_terms : List String := ["math", "mathematics", "arithmetic"]

/-- Terms that flag a request for data outside the deployed registry
(app.py 521-524). -/
def unavailable_terms : List String :=
  ["suspension", "discipline", "college", "career", "graduation",
   "english learner progress", "elpi", "elpac"]

/-- Problem phrases that trigger the default colors (app.py 531). -/
def problem_phrases : List String :=
  ["lowest", "worst", "struggling", "red", "problem", "concerning"]

/-- Explanation text attached when the requested data is unavailable
(app.py 528). -/
def unavailable_explanation : String :=
  "Requested data (suspensions, college/career, EL progress) is not available in the current dataset. Available indicators: chronic absenteeism, ELA performance, math performance."

/-- The rule-based fallback intent extractor, `parse_query_with_patterns`
(app.py 458-536): lower-case the input, take the first matching district
keyword, collect every matching student group, color word (title-cased) and
indicator keyword, flag unavailable data, and default the colors to
Red/Orange when a problem phrase occurs and no explicit color was given. -/
def parse_query_with_patterns (user_query : String) : ParsedQuery :=
  let ql := pyLower user_query
  let districtName := (district_keywords.find? (fun kv => strIn kv.1 ql)).map (fun kv => kv.2)
  let groups := (student_group_patterns.filter (fun kv => strIn kv.1 ql)).map (fun kv => kv.2)
  let colorsFound := (color_words.filter (fun c => strIn c ql)).map pyTitle
  let indicators :=
    (if chronic_terms.any (fun w => strIn w ql) then ["chronic_absenteeism"] else []) ++
    (if ela_terms.any (fun w => strIn w ql) then ["ela_performance"] else []) ++
    (if math_terms.any (fun w => strIn w ql) then ["math_performance"] else [])
  let notAvail := unavailable_terms.any (fun w => strIn w ql)
  let problem := problem_phrases.any (fun w => strIn w ql)
  { district_name := districtName
    school_name := none
    colors := if problem && colorsFound.isEmpty then ["Red", "Orange"] else colorsFound
    indicators := indicators
    student_groups := groups
    data_availability := if notAvail then "not_available" else "available"
    explanation := if notAvail then unavailable_explanation
                   else "Using pattern matching for query analysis" }

/-- The intent-extraction entry point `parse_query_with_real_ai`
(app.py 111-125). The AI-backed strategy is a collaborator: `aiOutcome` is
the outcome of `analyze_query_with_gemini` when `aiEnabled` is true
(`none` covers an exception, a reply with no parseable JSON object, and a
falsy parse — all of which make the source fall through). The result is the
AI parse when one was produced, else the rule-based fallback. -/
def parse_query_with_real_ai (aiEnabled : Bool) (aiOutcome : Option ParsedQuery)
    (user_query : String) : ParsedQuery :=
  match (if aiEnabled then aiOutcome else none) with
  | some p => p
  | none => parse_query_with_patterns user_query

/-- A dotted field path into a school document, as built with f-strings by
`build_mongodb_query`: either the overall location
`dashboard_indicators.<indicator>` or the per-group location
`student_groups.<group>.<indicator>`. -/
inductive FieldPath where
  | overall (indicator : String)
  | group (g : String) (indicator : String)
deriving Repr, DecidableEq

/-- The dotted string of the status field at a path, exactly the f-string the
source passes to the store. -/
def FieldPath.statusKey : FieldPath → String
  | .overall i => "dashboard_indicators." ++ i ++ ".status"
  | .group g i => "student_groups." ++ g ++ "." ++ i ++ ".status"

/-- One member of the $or list of the compiled filter: either a
status-membership condition `<path>.status $in colors` or a field-existence
condition `<path> $exists true`. -/
inductive IndicatorCond where
  | statusIn (path : FieldPath) (colors : List String)
  | fieldExists (path : FieldPath)
deriving Repr, DecidableEq

/-- The compiled store filter: an optional case-insensitive substring
predicate per name field (Mongo `$regex` with `$options: "i"` on a literal,
metacharacter-free pattern) and the $or list of indicator conditions (absent
key modelled as the empty list). -/
structure MongoFilter where
  district_name : Option String
  school_name : Option String
  orConds : List IndicatorCond
deriving Repr, DecidableEq

/-- The fallback indicator list hard-coded in the live `build_mongodb_query`
(app.py 715 and 728), used when the intent names no indicator. -/
def all_indicators : List String :=
  ["chronic_absenteeism", "ela_performance", "math_performance"]

/-- The filter compiler `build_mongodb_query` (app.py 681-738). Python dict
truthiness is mirrored: a missing or empty district/school string adds no
predicate, an empty colors list builds no conditions. The live function body
returns at app.py 738 and contains no branch for indicators without colors,
so the $or list is empty whenever `colors` is. -/
def build_mongodb_query (p : ParsedQuery) : MongoFilter :=
  let districtF := match p.district_name with
    | some s => if s = "" then none else some s
    | none => none
  let schoolF := match p.school_name with
    | some s => if s = "" then none else some s
    | none => none
  let colorConds :=
    if p.colors.isEmpty then []
    else if !p.student_groups.isEmpty then
      (p.student_groups.map (fun g =>
        (if p.indicators.isEmpty then all_indicators else p.indicators).map
          (fun i => IndicatorCond.statusIn (.group g i) p.colors))).flatten
    else
      (if p.indicators.isEmpty then all_indicators else p.indicators).map
        (fun i => IndicatorCond.statusIn (.overall i) p.colors)
  { district_name := districtF, school_name := schoolF, orConds := colorConds }

/-- One stored metric observation (the per-indicator dict written by
data_import_improved.py): a status string, at most one of the two value
fields `rate` / `points_below_standard`, and a change delta. Values are in
tenths (see the file comment). -/
structure IndicatorResult where
  status : String
  rate : Option Int
  points_below_standard : Option Int
  change : Option Int
deriving Repr, DecidableEq

/-- One school document: name fields plus the overall and per-group
indicator maps (association lists in insertion order). -/
structure SchoolRecord where
  district_name : String
  school_name : String
  dashboard_indicators : List (String × IndicatorResult)
  student_groups : List (String × List (String × IndicatorResult))
deriving Repr, DecidableEq

/-- Resolve a field path inside a record. -/
def lookupPath (r : SchoolRecord) : FieldPath → Option IndicatorResult
  | .overall i => (r.dashboard_indicators.find? (fun kv => kv.1 == i)).map (fun kv => kv.2)
  | .group g i =>
      ((r.student_groups.find? (fun kv => kv.1 == g)).map (fun kv => kv.2)).bind
        (fun m => (m.find? (fun kv => kv.1 == i)).map (fun kv => kv.2))

/-- Store semantics of one $or member: `$in` on the status of a resolved
path (a missing path matches nothing), `$exists` as resolvability. -/
def evalCond (r : SchoolRecord) : IndicatorCond → Bool
  | .statusIn path colors =>
      match lookupPath r path with
      | some res => colors.contains res.status
      | none => false
  | .fieldExists path => (lookupPath r path).isSome

/-- Store semantics of a compiled filter: name predicates are
case-insensitive substring tests, the $or list (when present) requires some
member to hold, and everything is conjoined. -/
def evalFilter (f : MongoFilter) (r : SchoolRecord) : Bool :=
  (match f.district_name with
   | some pat => strIn (pyLower pat) (pyLower r.district_name)
   | none => true) &&
  (match f.school_name with
   | some pat => strIn (pyLower pat) (pyLower r.school_name)
   | none => true) &&
  (f.orConds.isEmpty || f.orConds.any (evalCond r))

/-- Render an integer number of tenths with one decimal place, the Lean image
of Python one-decimal float formatting on tenths-valued floats. -/
def fmtTenths (v : Int) : String :=
  (if v < 0 then "-" else "") ++ toString (v.natAbs / 10) ++ "." ++ toString (v.natAbs % 10)

/-- Python `data.get("rate", data.get("points_below_standard", 0))`
(app.py 1573). -/
def IndicatorResult.displayValue (d : IndicatorResult) : Int :=
  d.rate.getD (d.points_below_standard.getD 0)

/-- The per-indicator bullet line of the single-school branch of
`generate_template_response` (app.py 1570-1586): skip observations whose
status is the "No Data" sentinel, render chronic absenteeism as a percentage
and the two distance-from-standard indicators as points above/below standard,
and emit nothing for any other indicator key. -/
def indLine (indicator : String) (d : IndicatorResult) : Option String :=
  if d.status = "No Data" then none
  else
    let v := d.displayValue
    if indicator = "chronic_absenteeism" then
      some ("• **Chronic Absenteeism**: " ++ d.status ++ " (" ++ fmtTenths v ++
            "% students chronically absent)")
    else if indicator = "ela_performance" then
      if 0 ≤ v then
        some ("• **ELA Performance**: " ++ d.status ++ " (" ++ fmtTenths v ++
              " points above standard)")
      else
        some ("• **ELA Performance**: " ++ d.status ++ " (" ++ fmtTenths (v.natAbs : Int) ++
              " points below standard)")
    else if indicator = "math_performance" then
      if 0 ≤ v then
        some ("• **Math Performance**: " ++ d.status ++ " (" ++ fmtTenths v ++
              " points above standard)")
      else
        some ("• **Math Performance**: " ++ d.status ++ " (" ++ fmtTenths (v.natAbs : Int) ++
              " points below standard)")
    else none

/-- The deterministic explainer `generate_template_response`
(app.py 1555-1591): a single result gets a header plus the overall
per-indicator breakdown, any other cardinality gets the flat count message. -/
def generate_template_response (user_query : String) (results : List SchoolRecord)
    (parsed_query : ParsedQuery) : String :=
  match results with
  | [school] =>
      let headParts := ["**🏫 " ++ school.school_name ++ "** (" ++ school.district_name ++ ")"]
      let parts :=
        if school.dashboard_indicators.isEmpty then headParts
        else headParts ++ ["\n**📈 Overall School Performance:**"] ++
          school.dashboard_indicators.filterMap (fun kv => indLine kv.1 kv.2)
      String.intercalate "\n" parts
  | _ =>
      "**📊 Found " ++ toString results.length ++
      " schools matching your criteria.** Check the detailed results below for specific performance data by school and student group."

/-- The fixed message returned when the intent flags unavailable data
(app.py 812). -/
def notAvailableMessage (explanation : String) : String :=
  "❌ **Data Not Available**: " ++ explanation ++
  "\n\n✅ **Available Data**: I can help you analyze chronic absenteeism, ELA performance, and math performance across all student groups."

/-- The fixed message returned for an empty result set (app.py 815). -/
def noMatchMessage : String :=
  "I didn\x27t find any schools matching your criteria. Try adjusting your search terms."

/-- The result explainer `generate_intelligent_response` (app.py 807-827).
`aiNarrative` is the collaborator outcome of `generate_ai_analysis` when the
AI is enabled and consulted (`none` covers an exception and a falsy reply,
both of which make the source fall through to the template). -/
def generate_intelligent_response (aiEnabled : Bool) (aiNarrative : Option String)
    (user_query : String) (results : List SchoolRecord) (parsed_query : ParsedQuery) :
    String :=
  if parsed_query.data_availability = "not_available" then
    notAvailableMessage parsed_query.explanation
  else if results.isEmpty then
    noMatchMessage
  else if aiEnabled && results.length ≤ 10 then
    match aiNarrative with
    | some r => r
    | none => generate_template_response user_query results parsed_query
  else
    generate_template_response user_query results parsed_query

/-- The orchestrator `handle_query` (app.py 2255-2276): extract the intent,
compile the filter, run the store lookup (the store collaborator is a
function from filters to record lists; the 50-record cap of `.limit(50)` is
applied to its reply), then build the narrative. The HTTP reply carries both
the narrative and the matched records, returned here as the pair. -/
def handle_query (store : MongoFilter → List SchoolRecord)
    (aiEnabled : Bool) (aiParse : Option ParsedQuery) (aiNarrative : Option String)
    (user_query : String) : String × List SchoolRecord :=
  let parsed := parse_query_with_real_ai aiEnabled aiParse user_query
  let mongoQuery := build_mongodb_query parsed
  let results := (store mongoQuery).take 50
  let response := generate_intelligent_response aiEnabled aiNarrative user_query results parsed
  (response, results)

/-- The supported student-group codes (the keys of `get_student_group_name`,
app.py 1596-1613). -/
def student_group_codes : List String :=
  ["ALL", "AA", "AI", "AS", "FI", "HI", "PI", "WH", "MR", "EL", "LTEL", "RFEP",
   "SED", "SWD", "HOM", "FOS"]

/-- Drop the change delta of one observation (used to state that the
deterministic explainer never reads it). -/
def IndicatorResult.eraseChange (d : IndicatorResult) : IndicatorResult :=
  { d with change := none }

/-- Drop every change delta of a record. -/
def SchoolRecord.eraseChanges (r : SchoolRecord) : SchoolRecord :=
  { r with
    dashboard_indicators :=
      r.dashboard_indicators.map (fun kv => (kv.1, kv.2.eraseChange))
    student_groups :=
      r.student_groups.map (fun kv => (kv.1, kv.2.map (fun kv2 => (kv2.1, kv2.2.eraseChange)))) }

/-- The scenario query of the spec (§8). -/
def sunnyvaleQuery : String := "Which schools in Sunnyvale have red math performance?"

/-- Synthetic record with a Red overall math status in a Sunnyvale district. -/
def sunnyvaleRedRecord : SchoolRecord :=
  { district_name := "Sunnyvale Elementary", school_name := "Test School",
    dashboard_indicators := [("math_performance",
      { status := "Red", rate := none, points_below_standard := some (-250), change := some 0 })],
    student_groups := [] }

/-- The same record with a Green overall math status. -/
def sunnyvaleGreenRecord : SchoolRecord :=
  { district_name := "Sunnyvale Elementary", school_name := "Test School",
    dashboard_indicators := [("math_performance",
      { status := "Green", rate := none, points_below_standard := some (-250), change := some 0 })],
    student_groups := [] }

/-- A neutral intent used when exercising the explainer alone. -/
def sampleIntent : ParsedQuery :=
  { district_name := none, school_name := none, colors := [], indicators := [],
    student_groups := [], data_availability := "available",
    explanation := "Using pattern matching for query analysis" }

/-- Single-record input of the round-trip property: overall ELA
status Green, value 12.3 (123 tenths), with the given change delta
(in tenths). -/
def elaSampleRecord (change : Int) : SchoolRecord :=
  { district_name := "Test District", school_name := "Test School",
    dashboard_indicators := [("ela_performance",
      { status := "Green", rate := none, points_below_standard := some 123,
        change := some change })],
    student_groups := [] }

/-- Single-record input with a chronic-absenteeism observation of rate 5.0
and the given change delta (in tenths). -/
def chronicSampleRecord (change : Int) : SchoolRecord :=
  { district_name := "Test District", school_name := "Test School",
    dashboard_indicators := [("chronic_absenteeism",
      { status := "Green", rate := some 50, points_below_standard := none,
        change := some change })],
    student_groups := [] }

/-- Single-record input with a graduation-rate observation carrying a
positive change of 2.0 (20 tenths). -/
def gradSampleRecord : SchoolRecord :=
  { district_name := "Test District", school_name := "Test School",
    dashboard_indicators := [("graduation_rate",
      { status := "Green", rate := some 950, points_below_standard := none,
        change := some 20 })],
    student_groups := [] }

/-- A query asking about an indicator outside the deployed registry. -/
def suspensionQuery : String := "What are the suspension rates in Sunnyvale?"

/-- A query containing a success phrase and no color word. -/
def bestQuery : String := "Which schools are the best?"

/-- A query whose lower-cased text contains the letters red only inside the
word hundred. -/
def hundredQuery : String := "How many schools have over one hundred students?"

/-- An intent with empty colors and one indicator, for the existence-check
property. -/
def elaOnlyIntent : ParsedQuery :=
  { district_name := some "sunnyvale", school_name := none, colors := [],
    indicators := ["ela_performance"], student_groups := [],
    data_availability := "available",
    explanation := "Using pattern matching for query analysis" }

/-- The per-indicator renderer never reads the change field. -/
theorem indLine_eraseChange (i : String) (d : IndicatorResult) :
    indLine i d.eraseChange = indLine i d := rfl

/-- Dropping every change field commutes out of the indicator breakdown. -/
theorem filterMap_indLine_eraseChange (l : List (String × IndicatorResult)) :
    (l.map (fun kv => (kv.1, kv.2.eraseChange))).filterMap (fun kv => indLine kv.1 kv.2)
      = l.filterMap (fun kv => indLine kv.1 kv.2) := by
  rw [List.filterMap_map]
  rfl

/-- C5: the scenario query parses to the intended intent under the
rule-based fallback, and the compiled filter accepts the synthetic Sunnyvale
record with Red overall math status while rejecting the otherwise identical
Green one. -/
theorem c5_sunnyvale_scenario :
    parse_query_with_patterns sunnyvaleQuery =
      { district_name := some "sunnyvale", school_name := none, colors := ["Red"],
        indicators := ["math_performance"], student_groups := [],
        data_availability := "available",
        explanation := "Using pattern matching for query analysis" } ∧
    evalFilter (build_mongodb_query (parse_query_with_patterns sunnyvaleQuery))
      sunnyvaleRedRecord = true ∧
    evalFilter (build_mongodb_query (parse_query_with_patterns sunnyvaleQuery))
      sunnyvaleGreenRecord = false := by
  refine ⟨by decide, by decide, by decide⟩

/-- C6: compiling an intent with colors Red, one supported indicator i and
one student-group code g yields exactly one condition, a status-membership
predicate on the nested per-group path of i under g (whose dotted rendering
is student_groups.g.i.status) and nothing else; with no student group the
single condition targets the overall dashboard_indicators path instead. -/
theorem c6_single_pair_path (i g e : String)
    (hi : i ∈ all_indicators) (hg : g ∈ student_group_codes) :
    (build_mongodb_query
      { district_name := none, school_name := none, colors := ["Red"],
        indicators := [i], student_groups := [g],
        data_availability := "available", explanation := e }).orConds
        = [IndicatorCond.statusIn (.group g i) ["Red"]] ∧
    (build_mongodb_query
      { district_name := none, school_name := none, colors := ["Red"],
        indicators := [i], student_groups := [],
        data_availability := "available", explanation := e }).orConds
        = [IndicatorCond.statusIn (.overall i) ["Red"]] ∧
    FieldPath.statusKey (.group g i) = "student_groups." ++ g ++ "." ++ i ++ ".status" := by
  exact ⟨rfl, rfl, rfl⟩

/-- Witness for C6 at a concrete supported indicator and group code. -/
theorem c6_witness :
    (build_mongodb_query
      { district_name := none, school_name := none, colors := ["Red"],
        indicators := ["chronic_absenteeism"], student_groups := ["EL"],
        data_availability := "available", explanation := "x" }).orConds
      = [IndicatorCond.statusIn (.group "EL" "chronic_absenteeism") ["Red"]] :=
  (c6_single_pair_path "chronic_absenteeism" "EL" "x" (by decide) (by decide)).1

/-- C7: whenever the AI strategy is unavailable or produced no usable parse,
the intent-extraction entry point returns the rule-based fallback parse (it
is a total function, so no failure propagates to the caller). -/
theorem c7_fallback_on_ai_failure (aiEnabled : Bool) (aiOutcome : Option ParsedQuery)
    (q : String) (h : aiEnabled = false ∨ aiOutcome = none) :
    parse_query_with_real_ai aiEnabled aiOutcome q = parse_query_with_patterns q := by
  rcases h with h | h
  · subst h; rfl
  · subst h; cases aiEnabled <;> rfl

/-- Witness for C7 with the AI strategy disabled. -/
theorem c7_witness :
    parse_query_with_real_ai false (some sampleIntent) "hello" =
      parse_query_with_patterns "hello" :=
  c7_fallback_on_ai_failure false (some sampleIntent) "hello" (Or.inl rfl)

/-- C8: with available data and an empty result sequence, the explainer
returns the fixed no-matching-schools message, whatever the rest of the
intent and the AI collaborator state are; the message carries the literal
schools-matching wording. -/
theorem c8_empty_results_message (aiEnabled : Bool) (aiNarrative : Option String)
    (q : String) (parsed : ParsedQuery) (h : parsed.data_availability = "available") :
    generate_intelligent_response aiEnabled aiNarrative q [] parsed = noMatchMessage ∧
    strIn "schools matching" noMatchMessage = true := by
  refine ⟨?_, by decide⟩
  simp [generate_intelligent_response, h]

/-- Witness for C8 at a concrete intent. -/
theorem c8_witness :
    generate_intelligent_response true (some "ai text") "q" [] sampleIntent
      = noMatchMessage :=
  (c8_empty_results_message true (some "ai text") "q" sampleIntent rfl).1

/-- C10: color detection in the rule-based fallback is bare substring
containment: any input whose lower-cased text contains the letters red,
even inside a longer word, yields an intent whose colors contain Red. -/
theorem c10_substring_color_detection (s : String)
    (h : strIn "red" (pyLower s) = true) :
    "Red" ∈ (parse_query_with_patterns s).colors := by
  have hmem : "Red" ∈ (color_words.filter (fun c => strIn c (pyLower s))).map pyTitle := by
    simp only [color_words, List.filter_cons, h, if_true, List.map_cons]
    exact List.mem_cons_self _ _
  simp only [parse_query_with_patterns]
  split
  · exact List.mem_cons_self _ _
  · exact hmem

/-- Witness for C10: a query mentioning no color whose text contains red
inside the word hundred. -/
theorem c10_witness :
    strIn "red" (pyLower hundredQuery) = true ∧
    "Red" ∈ (parse_query_with_patterns hundredQuery).colors :=
  ⟨by decide, c10_substring_color_detection hundredQuery (by decide)⟩

/-- C1 counterexample: on a suspension-rates query the extracted intent has
data_availability not_available and the fixed message is returned, yet the
orchestrator output depends on the document store and carries its records:
the store is queried (with the compiled filter) before the not-available
check, contradicting the claim that the store is never touched. -/
theorem c1_counterexample :
    (parse_query_with_real_ai false none suspensionQuery).data_availability
      = "not_available" ∧
    (handle_query (fun _ => [sunnyvaleRedRecord]) false none none suspensionQuery).1
      = notAvailableMessage unavailable_explanation ∧
    (handle_query (fun _ => [sunnyvaleRedRecord]) false none none suspensionQuery).2
      = [sunnyvaleRedRecord] ∧
    handle_query (fun _ => []) false none none suspensionQuery
      ≠ handle_query (fun _ => [sunnyvaleRedRecord]) false none none suspensionQuery := by
  refine ⟨by decide, by decide, by decide, by decide⟩

/-- C1 amended: whenever the extracted intent has data_availability
not_available, the narrative short-circuits to the fixed message — but only
the narrative: the compiled filter is still executed against the store and
the store reply (capped at 50) is returned alongside it. -/
theorem c1_not_available_message_store_still_queried
    (store : MongoFilter → List SchoolRecord) (aiEnabled : Bool)
    (aiParse : Option ParsedQuery) (aiNarrative : Option String) (q : String)
    (h : (parse_query_with_real_ai aiEnabled aiParse q).data_availability
      = "not_available") :
    handle_query store aiEnabled aiParse aiNarrative q =
      (notAvailableMessage (parse_query_with_real_ai aiEnabled aiParse q).explanation,
       (store (build_mongodb_query (parse_query_with_real_ai aiEnabled aiParse q))).take 50) := by
  simp [handle_query, generate_intelligent_response, h]

/-- Witness for the amended C1 on the concrete suspension query. -/
theorem c1_witness :
    (parse_query_with_real_ai false none suspensionQuery).data_availability
      = "not_available" ∧
    handle_query (fun _ => []) false none none suspensionQuery
      = (notAvailableMessage unavailable_explanation, []) := by
  refine ⟨by decide, ?_⟩
  rw [c1_not_available_message_store_still_queried (fun _ => []) false none none
      suspensionQuery (by decide)]
  decide

/-- C2 counterexample: for an intent with empty colors and a non-empty
indicators set, the live compiler produces no indicator condition at all —
in particular no field-existence predicate — only the district filter. -/
theorem c2_counterexample :
    build_mongodb_query elaOnlyIntent =
      { district_name := some "sunnyvale", school_name := none, orConds := [] } := by
  decide

/-- C2 amended: whenever the intent carries no colors the compiled filter
carries no indicator/group condition of any kind (the indicators-only
existence branch is unreachable in the live compiler), leaving only the
district/school substring predicates. -/
theorem c2_empty_colors_no_predicate (p : ParsedQuery) (h : p.colors = []) :
    (build_mongodb_query p).orConds = [] := by
  simp [build_mongodb_query, h]

/-- Witness for the amended C2. -/
theorem c2_witness :
    elaOnlyIntent.colors = [] ∧ (build_mongodb_query elaOnlyIntent).orConds = [] :=
  ⟨rfl, c2_empty_colors_no_predicate elaOnlyIntent rfl⟩

/-- C4 counterexample: the single-record explainer output for the Green ELA
observation with value 12.3 and change +1.5 is exactly the string below — it
contains the points-above-standard wording but no phrase derived from the
change, as flipping the sign of the change leaves the output unchanged. -/
theorem c4_counterexample :
    generate_template_response "q" [elaSampleRecord 15] sampleIntent =
      "**🏫 Test School** (Test District)\n\n**📈 Overall School Performance:**\n• **ELA Performance**: Green (12.3 points above standard)" ∧
    generate_template_response "q" [elaSampleRecord 15] sampleIntent
      = generate_template_response "q" [elaSampleRecord (-15)] sampleIntent := by
  refine ⟨by decide, by decide⟩

/-- C4 amended: the explainer output does contain the literal substring
"12.3 points above standard", but it indicates nothing about improvement:
the output is unchanged when the change field is erased. -/
theorem c4_value_rendered_change_ignored :
    strIn "12.3 points above standard"
      (generate_template_response "q" [elaSampleRecord 15] sampleIntent) = true ∧
    generate_template_response "q" [(elaSampleRecord 15).eraseChanges] sampleIntent
      = generate_template_response "q" [elaSampleRecord 15] sampleIntent := by
  refine ⟨by decide, by decide⟩

/-- C9 counterexample: a query containing the success phrase best and none
of the five color words parses to an intent with an empty colors set, not
the claimed Green/Blue default. -/
theorem c9_counterexample :
    strIn "best" (pyLower bestQuery) = true ∧
    (color_words.any fun c => strIn c (pyLower bestQuery)) = false ∧
    (parse_query_with_patterns bestQuery).colors = [] := by
  refine ⟨by decide, by decide, by decide⟩

/-- C9 amended: the rule-based fallback has no success-phrase color default.
When the input contains none of the five color words and no problem phrase,
the colors set stays empty — success phrases included; the only defaulting
is the problem-phrase Red/Orange one. -/
theorem c9_no_success_default (s : String)
    (hc : (color_words.any fun c => strIn c (pyLower s)) = false)
    (hp : (problem_phrases.any fun w => strIn w (pyLower s)) = false) :
    (parse_query_with_patterns s).colors = [] := by
  have hfilter : color_words.filter (fun c => strIn c (pyLower s)) = [] := by
    rw [List.filter_eq_nil_iff]
    intro a ha
    exact (List.any_eq_false.mp hc) a ha
  simp [parse_query_with_patterns, hfilter, hp]

/-- Witness for the amended C9 at the best-schools query. -/
theorem c9_witness : (parse_query_with_patterns bestQuery).colors = [] :=
  c9_no_success_default bestQuery (by decide) (by decide)

/-- C3 counterexample: the deterministic explainer produces identical output
for a chronic-absenteeism change of +2.0 and of -2.0 (so no worsening is
indicated for the positive change, and no direction for any non-zero
change), and a graduation-rate observation with change +2.0 is not rendered
at all, let alone as an improvement. -/
theorem c3_counterexample :
    generate_template_response "q" [chronicSampleRecord 20] sampleIntent
      = generate_template_response "q" [chronicSampleRecord (-20)] sampleIntent ∧
    generate_template_response "q" [gradSampleRecord] sampleIntent
      = "**🏫 Test School** (Test District)\n\n**📈 Overall School Performance:**" := by
  refine ⟨by decide, by decide⟩

/-- C3 amended: the deterministic explainer never reads the change field —
its output is invariant under erasing every change delta, so no direction
(improvement or worsening) is ever phrased — and indicators outside the
three with rendering branches, graduation rate among them, produce no line. -/
theorem c3_change_never_rendered :
    (∀ (q : String) (p : ParsedQuery) (results : List SchoolRecord),
      generate_template_response q (results.map SchoolRecord.eraseChanges) p
        = generate_template_response q results p) ∧
    (∀ d : IndicatorResult, indLine "graduation_rate" d = none) := by
  constructor
  · intro q p results
    match results with
    | [] => rfl
    | s :: s2 :: tl =>
        simp [generate_template_response, List.length_map]
    | [s] =>
        rcases s with ⟨dn, sn, di, sg⟩
        cases di with
        | nil => rfl
        | cons kv dtl =>
            simp only [generate_template_response, SchoolRecord.eraseChanges,
              List.map_cons, List.map_nil, List.isEmpty_cons, List.filterMap_cons,
              indLine_eraseChange, filterMap_indLine_eraseChange]
  · intro d
    by_cases h : d.status = "No Data" <;> simp [indLine, h]

end CADash
